import Mathlib

/-!
Verification development for the Side Letter chat API (`app.py`).

Python strings are modelled as lists of characters (`Str`), the in-memory
interaction log (a `deque` with `maxlen=1000`) as a `List Interaction`
together with a capacity-bounded append, and the Flask handlers `chat`,
`get_logs`, `get_log_detail` and `export_logs` as pure functions over that
state.  Wall-clock timestamps and the two external backends (Ragie
retrieval, OpenAI generation) enter as explicit parameters/oracles.
-/

/-- Python `str` modelled as a list of characters. -/
abbrev Str := List Char

/-- Python `str.strip()`: drop leading and trailing whitespace. -/
def pyStrip (s : Str) : Str :=
  ((s.dropWhile Char.isWhitespace).reverse.dropWhile Char.isWhitespace).reverse

/-- Python `str.lower()`: lowercase every character. -/
def pyLower (s : Str) : Str := s.map Char.toLower

/-- Python slice `l[i:j]` with the usual negative-index normalisation:
a negative bound counts from the end, bounds are clamped to `[0, len l]`,
and the slice is empty when the normalised stop does not exceed the
normalised start. -/
def pySlice (i j : ℤ) (l : List α) : List α :=
  let n : ℤ := l.length
  let start := if i < 0 then max 0 (n + i) else min i n
  let stop := if j < 0 then max 0 (n + j) else min j n
  (l.drop start.toNat).take (stop - start).toNat

/-- Append for `deque(maxlen=cap)`: add `x` on the right, dropping elements on
the left so that at most `cap` elements remain. -/
def dequeAppend (cap : ℕ) (l : List α) (x : α) : List α :=
  let l' := l ++ [x]
  if cap < l'.length then l'.drop (l'.length - cap) else l'

/-- The log capacity: `interactions_log = deque(maxlen=1000)` (app.py line 19). -/
def logCapacity : ℕ := 1000

/-- Python `round(x, 3)` on an exact value: scale by 1000, round to the
nearest integer with ties going to the even integer (banker's rounding,
as Python's `round` does), and scale back. -/
def pyRound3 (x : ℚ) : ℚ :=
  let y := x * 1000
  let f : ℤ := ⌊y⌋
  let r := y - f
  let n : ℤ :=
    if r < 1/2 then f
    else if 1/2 < r then f + 1
    else if f % 2 = 0 then f else f + 1
  (n : ℚ) / 1000

/-- One scored chunk as returned by the Ragie retrieval call. -/
structure Chunk where
  text : Str
  score : ℚ
  docId : Str
  docName : Str
  deriving DecidableEq, Repr

/-- One entry of the `sources` array built in `chat` (app.py lines 250-256). -/
structure Source where
  id : Str
  name : Str
  score : ℚ
  snippet : Str
  deriving DecidableEq, Repr

/-- Construction of `source_info` for a chunk (app.py lines 250-255):
score rounded to 3 decimals, snippet truncated to 150 characters plus an
ellipsis when the text is longer than 150 characters. -/
def mkSource (c : Chunk) : Source :=
  { id := c.docId
    name := c.docName
    score := pyRound3 c.score
    snippet := if 150 < c.text.length then c.text.take 150 ++ "...".toList else c.text }

/-- One record of `interactions_log` (app.py lines 300-308). -/
structure Interaction where
  id : ℕ
  timestamp : Str
  question : Str
  answer : Str
  sources : List Source
  sources_count : ℕ
  answer_length : ℕ
  deriving DecidableEq, Repr

/-- The JSON body returned by the `chat` handler; absent keys are `none`. -/
structure ChatResponse where
  success : Bool
  status : ℕ
  error : Option Str := none
  answer : Option Str := none
  sources : Option (List Source) := none
  question : Option Str := none
  interaction_id : Option ℕ := none
  deriving DecidableEq, Repr

/-- Result of one `chat` request: the new log state, the response, and
whether the retrieval and generation backends were invoked. -/
structure ChatStep where
  log : List Interaction
  response : ChatResponse
  retrievalCalled : Bool
  generationCalled : Bool
  deriving DecidableEq, Repr

/-- Canned answer returned when retrieval yields no chunks (app.py line 262). -/
def cannedAnswer : Str :=
  "We don’t have strong coverage here yet. Would you like us to flag this for updated or expanded coverage?".toList

/-- The `chat` handler (app.py lines 205-325), with API clients assumed
configured.  `body` is `none` for a missing/falsy JSON body, otherwise
`some q?` where `q?` is the optional `question` field; `retrieve` is the
Ragie retrieval oracle, `generate` the OpenAI completion oracle, and `ts`
the formatted `datetime.utcnow().isoformat() + 'Z'` timestamp. -/
def chatStep (log : List Interaction) (body : Option (Option Str))
    (retrieve : Str → List Chunk) (generate : Str → List Chunk → Str)
    (ts : Str) : ChatStep :=
  match body with
  | none =>
      { log := log
        response := { success := false, status := 400
                      error := some "Request body is required".toList }
        retrievalCalled := false, generationCalled := false }
  | some q? =>
      let user_question := pyStrip (q?.getD [])
      if user_question = [] then
        { log := log
          response := { success := false, status := 400
                        error := some "Question is required".toList }
          retrievalCalled := false, generationCalled := false }
      else
        let scored_chunks := retrieve user_question
        let sources := scored_chunks.map mkSource
        if scored_chunks = [] then
          { log := log
            response := { success := true, status := 200
                          answer := some cannedAnswer
                          sources := some []
                          question := some user_question }
            retrievalCalled := true, generationCalled := false }
        else
          let answer := generate user_question scored_chunks
          let interaction : Interaction :=
            { id := log.length + 1
              timestamp := ts
              question := user_question
              answer := answer
              sources := sources
              sources_count := sources.length
              answer_length := answer.length }
          { log := dequeAppend logCapacity log interaction
            response := { success := true, status := 200
                          answer := some answer
                          sources := some sources
                          question := some user_question
                          interaction_id := some interaction.id }
            retrievalCalled := true, generationCalled := true }

/-- A fixed question used to drive iterated successful appends. -/
def qFixed : Str := "q".toList

/-- A retrieval oracle returning one fixed chunk, so every request succeeds. -/
def oracleRetrieve : Str → List Chunk := fun _ => [⟨"t".toList, 1, "d".toList, "n".toList⟩]

/-- A generation oracle returning a fixed answer. -/
def oracleGenerate : Str → List Chunk → Str := fun _ _ => "a".toList

/-- One successful `chat` request (fixed question, one retrieved chunk,
fixed answer and timestamp) against a given log state. -/
def chatAt (log : List Interaction) : ChatStep :=
  chatStep log (some (some qFixed)) oracleRetrieve oracleGenerate "t".toList

/-- The log state after `n` successful chat requests starting from empty. -/
def logAfter : ℕ → List Interaction
  | 0 => []
  | n + 1 => (chatAt (logAfter n)).log

/-- The page returned by `GET /api/logs` (app.py lines 412-441). -/
structure LogsPage where
  logs : List Interaction
  total : ℕ
  limit : ℤ
  offset : ℤ
  deriving DecidableEq, Repr

/-- The `get_logs` handler (app.py lines 412-441): cap the limit at 200
(default 50), default the offset to 0, reverse the log so the most recent
record comes first, and slice `[offset : offset + limit]` in Python
fashion.  `limitArg`/`offsetArg` are the parsed integer query parameters,
`none` when absent. -/
def get_logs (log : List Interaction) (limitArg offsetArg : Option ℤ) : LogsPage :=
  let limit := min (limitArg.getD 50) 200
  let offset := offsetArg.getD 0
  let logs_list := log.reverse
  { logs := pySlice offset (offset + limit) logs_list
    total := log.length
    limit := limit
    offset := offset }

/-- The `get_log_detail` handler (app.py lines 466-474): linear scan of the
log for the first record with the requested id; `none` is the 404
`Log not found` response. -/
def get_log_detail (log : List Interaction) (log_id : ℕ) : Option Interaction :=
  log.find? (fun l => l.id = log_id)

/-- One cell of a CSV row: `csv.writer` receives ints and strings. -/
inductive CsvCell where
  | nat (n : ℕ)
  | str (s : Str)
  deriving DecidableEq, Repr

/-- The CSV header row (app.py line 526). -/
def csvHeader : List CsvCell :=
  [.str "ID".toList, .str "Timestamp".toList, .str "Question".toList,
   .str "Answer".toList, .str "Sources Count".toList, .str "Answer Length".toList]

/-- One CSV data row for a record (app.py lines 530-537). -/
def csvRow (log : Interaction) : List CsvCell :=
  [.nat log.id, .str log.timestamp, .str log.question, .str log.answer,
   .nat log.sources_count, .nat log.answer_length]

/-- Decimal rendering of a natural number, for the TXT export body. -/
def natStr (n : ℕ) : Str := (Nat.repr n).toList

/-- One TXT export entry for a record (app.py lines 557-564). -/
def txtEntry (log : Interaction) : Str :=
  "ID: ".toList ++ natStr log.id ++ "\n".toList ++
  "Timestamp: ".toList ++ log.timestamp ++ "\n".toList ++
  "Question: ".toList ++ log.question ++ "\n".toList ++
  "Answer:\n".toList ++ log.answer ++ "\n".toList ++
  "Sources Count: ".toList ++ natStr log.sources_count ++ "\n".toList ++
  "Answer Length: ".toList ++ natStr log.answer_length ++ " chars\n".toList ++
  List.replicate 80 '-' ++ "\n\n".toList

/-- The TXT export preamble (app.py lines 552-555). -/
def txtPreamble (tsIso : Str) (count : ℕ) : Str :=
  "Interaction Logs Export\n".toList ++
  "Generated: ".toList ++ tsIso ++ "Z\n".toList ++
  "Total Interactions: ".toList ++ natStr count ++ "\n".toList ++
  List.replicate 80 '=' ++ "\n\n".toList

/-- The JSON export payload (app.py lines 578-582). -/
structure JsonExport where
  export_timestamp : Str
  total_interactions : ℕ
  logs : List Interaction
  deriving DecidableEq, Repr

/-- An export response: payload, suggested filename, and content type. -/
inductive ExportResult where
  | csv (rows : List (List CsvCell)) (filename : Str) (mimetype : Str)
  | txt (content : Str) (filename : Str) (mimetype : Str)
  | json (payload : JsonExport) (filename : Str) (mimetype : Str)
  deriving DecidableEq, Repr

/-- Whether an export response took the JSON branch. -/
def ExportResult.isJson : ExportResult → Bool
  | .json _ _ _ => true
  | _ => false

/-- The suggested filename of an export response. -/
def ExportResult.filename : ExportResult → Str
  | .csv _ f _ => f
  | .txt _ f _ => f
  | .json _ f _ => f

/-- The content type of an export response. -/
def ExportResult.mimetype : ExportResult → Str
  | .csv _ _ m => m
  | .txt _ _ m => m
  | .json _ _ m => m

/-- The JSON payload of an export response, when it took the JSON branch. -/
def ExportResult.jsonPayload : ExportResult → Option JsonExport
  | .json p _ _ => some p
  | _ => none

/-- The `export_logs` handler (app.py lines 505-592): lowercase the format
(default `json`), cap the limit at 1000 (default 1000), snapshot the log
most-recent-first, truncate to the limit when it is smaller than the total,
and serialize per format.  `ts` is `datetime.utcnow().strftime` with
pattern `%Y%m%d_%H%M%S`; `tsIso` is `datetime.utcnow().isoformat()`. -/
def export_logs (log : List Interaction) (formatArg : Option Str)
    (limitArg : Option ℤ) (ts tsIso : Str) : ExportResult :=
  let export_format := pyLower (formatArg.getD "json".toList)
  let limit := min (limitArg.getD 1000) 1000
  let total : ℤ := log.length
  let logs_list0 := log.reverse
  let logs_list := if limit < total then pySlice 0 limit logs_list0 else logs_list0
  if export_format = "csv".toList then
    .csv (csvHeader :: logs_list.map csvRow)
      ("interactions_".toList ++ ts ++ ".csv".toList) "text/csv".toList
  else if export_format = "txt".toList then
    .txt (txtPreamble tsIso logs_list.length ++ (logs_list.map txtEntry).flatten)
      ("interactions_".toList ++ ts ++ ".txt".toList) "text/plain".toList
  else
    .json { export_timestamp := tsIso ++ "Z".toList
            total_interactions := logs_list.length
            logs := logs_list }
      ("interactions_".toList ++ ts ++ ".json".toList) "application/json".toList

/-- The interaction record built by a successful `chatAt` request. -/
def interAt (l : List Interaction) : Interaction :=
  { id := l.length + 1
    timestamp := "t".toList
    question := qFixed
    answer := "a".toList
    sources := (oracleRetrieve qFixed).map mkSource
    sources_count := 1
    answer_length := 1 }

theorem chatAt_log (l : List Interaction) :
    (chatAt l).log = dequeAppend logCapacity l (interAt l) := rfl

theorem chatAt_interaction_id (l : List Interaction) :
    (chatAt l).response.interaction_id = some (l.length + 1) := rfl

theorem length_dequeAppend (cap : ℕ) (l : List α) (x : α) :
    (dequeAppend cap l x).length = min (l.length + 1) cap := by
  simp only [dequeAppend, List.length_append, List.length_cons, List.length_nil]
  split <;> · simp [List.length_drop]; omega

theorem getLast?_dequeAppend (cap : ℕ) (hcap : 1 ≤ cap) (l : List α) (x : α) :
    (dequeAppend cap l x).getLast? = some x := by
  simp only [dequeAppend]
  split
  · rename_i h
    rw [List.drop_append_of_le_length (by simp at h ⊢; omega)]
    exact List.getLast?_concat _
  · exact List.getLast?_concat _

theorem mem_dequeAppend (cap : ℕ) (l : List α) (x a : α)
    (h : a ∈ dequeAppend cap l x) : a ∈ l ∨ a = x := by
  simp only [dequeAppend] at h
  have : a ∈ l ++ [x] := by
    split at h
    · exact List.mem_of_mem_drop h
    · exact h
  simpa using this

theorem length_logAfter (n : ℕ) : (logAfter n).length = min n logCapacity := by
  induction n with
  | zero => simp [logAfter]
  | succ n ih =>
      rw [logAfter, chatAt_log, length_dequeAppend, ih]
      omega

theorem id_le_logAfter (n : ℕ) : ∀ r ∈ logAfter n, r.id ≤ logCapacity + 1 := by
  induction n with
  | zero => simp [logAfter]
  | succ n ih =>
      intro r hr
      rw [logAfter, chatAt_log] at hr
      rcases mem_dequeAppend _ _ _ _ hr with h | h
      · exact ih r h
      · subst h
        simp only [interAt, length_logAfter]
        omega

theorem getLast?_logAfter (n : ℕ) :
    (logAfter (n + 1)).getLast? = some (interAt (logAfter n)) := by
  rw [logAfter, chatAt_log]
  exact getLast?_dequeAppend _ (by norm_num [logCapacity]) _ _

theorem getLast?_drop_one (l : List α) (h : 2 ≤ l.length) :
    (l.drop 1).getLast? = l.getLast? := by
  match l, h with
  | a :: b :: t, _ => simp [List.getLast?_cons_cons]

/-- C1: after 1000 interactions have been logged, the log is at capacity and
`len(interactions_log) + 1` evaluates to 1001 forever after: the 1001st and
the 1002nd chat requests are both logged successfully and are both assigned
interaction id 1001, so ids are not strictly increasing in append order and
id 1001 is reassigned.  (Refutes the claimed invariant; the id really
assigned to every append past capacity is `min n 1000 + 1 = 1001`.) -/
theorem C1_id_reassigned_after_capacity :
    (chatAt (logAfter 1000)).response.success = true ∧
    (chatAt (logAfter 1000)).response.interaction_id = some 1001 ∧
    (chatAt (logAfter 1001)).response.success = true ∧
    (chatAt (logAfter 1001)).response.interaction_id = some 1001 := by
  refine ⟨rfl, ?_, rfl, ?_⟩ <;>
    · rw [chatAt_interaction_id, length_logAfter]
      norm_num [logCapacity]

/-- C2: after k = 1002 appends the log does retain exactly C = 1000 records,
but they do not bear ids k-C+1 .. k: the record that should bear id 1002
does not exist, so a get-by-id lookup on id 1002 returns the 404
`Log not found` response (while the claim requires it to be present). -/
theorem C2_retained_ids_wrong_after_capacity :
    (logAfter 1002).length = 1000 ∧
    get_log_detail (logAfter 1002) 1002 = none := by
  constructor
  · rw [length_logAfter]; norm_num [logCapacity]
  · rw [get_log_detail, List.find?_eq_none]
    intro x hx
    have hle := id_le_logAfter 1002 x hx
    simp only [logCapacity] at hle
    simp only [decide_eq_true_eq]
    omega

theorem dequeAppend_full (cap : ℕ) (hcap : 1 ≤ cap) (l : List α) (x : α)
    (h : l.length = cap) : dequeAppend cap l x = l.drop 1 ++ [x] := by
  simp only [dequeAppend, List.length_append, List.length_cons, List.length_nil]
  rw [if_pos (by omega)]
  have hcount : l.length + (0 + 1) - cap = 1 := by omega
  rw [hcount, List.drop_append_of_le_length (by omega)]

theorem logAfter_1002_eq :
    logAfter 1002 = (logAfter 1001).drop 1 ++ [interAt (logAfter 1001)] := by
  have hL : (logAfter 1001).length = 1000 := by
    rw [length_logAfter]; norm_num [logCapacity]
  have e1 : logAfter 1002 = (chatAt (logAfter 1001)).log := by
    rw [show (1002 : ℕ) = 1001 + 1 from rfl, logAfter]
  rw [e1, chatAt_log, dequeAppend_full logCapacity (by norm_num [logCapacity]) _ _
    (by rw [hL, logCapacity])]

/-- C3: the list endpoint does not always present records in strictly
decreasing id order.  After 1002 successful chat requests,
`get_logs(limit=50, offset=0)` reports `total = 1000` but its first two
records both bear id 1001 (the id-assignment bug of C1), so the page is
not strictly decreasing in id. -/
theorem C3_first_page_not_strictly_decreasing :
    (get_logs (logAfter 1002) (some 50) (some 0)).total = 1000 ∧
    (get_logs (logAfter 1002) (some 50) (some 0)).logs.head?.map Interaction.id
      = some 1001 ∧
    ((get_logs (logAfter 1002) (some 50) (some 0)).logs.drop 1).head?.map Interaction.id
      = some 1001 := by
  have hL : (logAfter 1001).length = 1000 := by
    rw [length_logAfter]; norm_num [logCapacity]
  have hn : (logAfter 1002).length = 1000 := by
    rw [length_logAfter]; norm_num [logCapacity]
  have hrev : (logAfter 1002).reverse
      = interAt (logAfter 1001) :: ((logAfter 1001).drop 1).reverse := by
    rw [logAfter_1002_eq]
    simp only [List.reverse_append, List.reverse_cons, List.reverse_nil,
      List.nil_append, List.singleton_append]
  have hlogs : (get_logs (logAfter 1002) (some 50) (some 0)).logs
      = ((logAfter 1002).reverse).take 50 := by
    simp only [get_logs, pySlice, Option.getD, List.length_reverse, hn]
    norm_num
    omega
  have hlast : (logAfter 1001).getLast? = some (interAt (logAfter 1000)) := by
    rw [show (1001 : ℕ) = 1000 + 1 from rfl]
    exact getLast?_logAfter 1000
  have htail : ((logAfter 1001).drop 1).reverse.head? = some (interAt (logAfter 1000)) := by
    rw [List.head?_reverse, getLast?_drop_one _ (by omega), hlast]
  obtain ⟨y, t, hy⟩ : ∃ y t, ((logAfter 1001).drop 1).reverse = y :: t := by
    cases h : ((logAfter 1001).drop 1).reverse with
    | nil => rw [h] at htail; simp at htail
    | cons y t => exact ⟨y, t, rfl⟩
  have hyid : y.id = 1001 := by
    rw [hy] at htail
    simp only [List.head?_cons, Option.some.injEq] at htail
    rw [htail]
    simp [interAt, length_logAfter, logCapacity]
  refine ⟨?_, ?_, ?_⟩
  · simp [get_logs, hn]
  · rw [hlogs, hrev]
    simp [interAt, hL]
  · rw [hlogs, hrev, hy]
    simp [hyid]

/-- C4: a request whose question is empty after trimming surrounding
whitespace (or whose body carries no question at all) is rejected with a
400 error response, the retrieval and generation backends are not called,
and the log is unchanged. -/
theorem C4_empty_question_rejected (log : List Interaction)
    (body : Option (Option Str)) (retrieve : Str → List Chunk)
    (generate : Str → List Chunk → Str) (ts : Str)
    (h : ∀ q?, body = some q? → pyStrip (q?.getD []) = []) :
    (chatStep log body retrieve generate ts).response.status = 400 ∧
    (chatStep log body retrieve generate ts).response.success = false ∧
    (chatStep log body retrieve generate ts).response.error.isSome = true ∧
    (chatStep log body retrieve generate ts).retrievalCalled = false ∧
    (chatStep log body retrieve generate ts).generationCalled = false ∧
    (chatStep log body retrieve generate ts).log = log := by
  cases body with
  | none => exact ⟨rfl, rfl, rfl, rfl, rfl, rfl⟩
  | some q? =>
      have hq := h q? rfl
      simp [chatStep, hq]

theorem C4_empty_question_rejected_witness :
    (chatStep [] (some (some "  ".toList)) oracleRetrieve oracleGenerate []).response.status = 400 ∧
    (chatStep [] (some (some "  ".toList)) oracleRetrieve oracleGenerate []).response.success = false ∧
    (chatStep [] (some (some "  ".toList)) oracleRetrieve oracleGenerate []).response.error.isSome = true ∧
    (chatStep [] (some (some "  ".toList)) oracleRetrieve oracleGenerate []).retrievalCalled = false ∧
    (chatStep [] (some (some "  ".toList)) oracleRetrieve oracleGenerate []).generationCalled = false ∧
    (chatStep [] (some (some "  ".toList)) oracleRetrieve oracleGenerate []).log = [] :=
  C4_empty_question_rejected [] _ _ _ _ (by intro q? hq; cases hq; decide)

/-- C5: when retrieval returns zero chunks, the response has
`success = true` with an empty sources list (and the canned apologetic
answer), and the interaction log is unchanged: nothing is appended. -/
theorem C5_no_coverage_not_logged (log : List Interaction) (q? : Option Str)
    (retrieve : Str → List Chunk) (generate : Str → List Chunk → Str) (ts : Str)
    (hq : pyStrip (q?.getD []) ≠ [])
    (hr : retrieve (pyStrip (q?.getD [])) = []) :
    (chatStep log (some q?) retrieve generate ts).response.success = true ∧
    (chatStep log (some q?) retrieve generate ts).response.sources = some [] ∧
    (chatStep log (some q?) retrieve generate ts).response.answer = some cannedAnswer ∧
    (chatStep log (some q?) retrieve generate ts).log = log := by
  simp [chatStep, hq, hr]

theorem C5_no_coverage_not_logged_witness :
    (chatStep [] (some (some "hi".toList)) (fun _ => []) oracleGenerate []).response.success = true ∧
    (chatStep [] (some (some "hi".toList)) (fun _ => []) oracleGenerate []).response.sources = some [] ∧
    (chatStep [] (some (some "hi".toList)) (fun _ => []) oracleGenerate []).response.answer = some cannedAnswer ∧
    (chatStep [] (some (some "hi".toList)) (fun _ => []) oracleGenerate []).log = [] :=
  C5_no_coverage_not_logged [] _ _ _ _ (by decide) rfl

/-- C6: with at least one retrieved chunk, the returned sources are exactly
one per chunk (same length), each carrying the chunk's score rounded to 3
decimal places, and a snippet that is the first 150 characters plus an
ellipsis (length at most 153) when the text exceeds 150 characters, else
the exact full text. -/
theorem C6_sources_shape (log : List Interaction) (q? : Option Str)
    (retrieve : Str → List Chunk) (generate : Str → List Chunk → Str) (ts : Str)
    (hq : pyStrip (q?.getD []) ≠ [])
    (hr : retrieve (pyStrip (q?.getD [])) ≠ []) :
    (chatStep log (some q?) retrieve generate ts).response.sources
      = some ((retrieve (pyStrip (q?.getD []))).map mkSource) ∧
    ((retrieve (pyStrip (q?.getD []))).map mkSource).length
      = (retrieve (pyStrip (q?.getD []))).length ∧
    ∀ c ∈ retrieve (pyStrip (q?.getD [])),
      (mkSource c).score = pyRound3 c.score ∧
      (150 < c.text.length →
        (mkSource c).snippet = c.text.take 150 ++ "...".toList ∧
        (mkSource c).snippet.length ≤ 153) ∧
      (c.text.length ≤ 150 → (mkSource c).snippet = c.text) := by
  refine ⟨?_, List.length_map _ _, ?_⟩
  · simp [chatStep, hq, hr]
  · intro c _
    refine ⟨rfl, fun hlen => ⟨?_, ?_⟩, fun hlen => ?_⟩
    · simp [mkSource, hlen]
    · simp only [mkSource, if_pos hlen, List.length_append, List.length_take]
      have : "...".toList.length = 3 := rfl
      omega
    · simp [mkSource]
      omega

theorem C6_sources_shape_witness :
    (chatStep [] (some (some qFixed)) oracleRetrieve oracleGenerate []).response.sources
      = some ((oracleRetrieve (pyStrip ((some qFixed).getD []))).map mkSource) ∧
    ((oracleRetrieve (pyStrip ((some qFixed).getD []))).map mkSource).length
      = (oracleRetrieve (pyStrip ((some qFixed).getD []))).length ∧
    ∀ c ∈ oracleRetrieve (pyStrip ((some qFixed).getD [])),
      (mkSource c).score = pyRound3 c.score ∧
      (150 < c.text.length →
        (mkSource c).snippet = c.text.take 150 ++ "...".toList ∧
        (mkSource c).snippet.length ≤ 153) ∧
      (c.text.length ≤ 150 → (mkSource c).snippet = c.text) :=
  C6_sources_shape [] _ _ _ _ (by decide) (by decide)

theorem pySlice_zero_nonneg (k : ℤ) (hk : 0 ≤ k) (l : List α) :
    pySlice 0 k l = l.take k.toNat := by
  simp only [pySlice]
  rw [if_neg (by omega), if_neg (by omega)]
  have h0 : min (0 : ℤ) l.length = 0 := by
    have : (0 : ℤ) ≤ l.length := by positivity
    omega
  rw [h0]
  simp only [Int.toNat_zero, List.drop_zero, sub_zero]
  rw [List.take_eq_take]
  omega

/-- C7: a CSV export consists of the header row
`ID,Timestamp,Question,Answer,Sources Count,Answer Length` followed by one
row per exported record in that same field order, the records taken
most-recent-first and truncated to the limit (itself capped at 1000), with
suggested filename `interactions_{timestamp}.csv` and content type
`text/csv`. -/
theorem C7_csv_export (log : List Interaction) (limitArg : Option ℤ)
    (ts tsIso : Str) (hl : 0 ≤ limitArg.getD 1000) :
    export_logs log (some "csv".toList) limitArg ts tsIso
      = .csv (csvHeader ::
            (log.reverse.take (min (limitArg.getD 1000) 1000).toNat).map csvRow)
          ("interactions_".toList ++ ts ++ ".csv".toList) "text/csv".toList ∧
    ∀ r : Interaction, csvRow r
      = [CsvCell.nat r.id, CsvCell.str r.timestamp, CsvCell.str r.question,
         CsvCell.str r.answer, CsvCell.nat r.sources_count, CsvCell.nat r.answer_length] := by
  refine ⟨?_, fun r => rfl⟩
  have key : (if min (limitArg.getD 1000) 1000 < ((log.length : ℕ) : ℤ)
        then pySlice 0 (min (limitArg.getD 1000) 1000) log.reverse
        else log.reverse)
      = log.reverse.take (min (limitArg.getD 1000) 1000).toNat := by
    split
    · exact pySlice_zero_nonneg _ (by omega) _
    · rename_i h
      rw [List.take_of_length_le]
      rw [List.length_reverse]
      omega
  simp only [export_logs, Option.getD_some]
  rw [if_pos (by decide)]
  rw [key]

theorem C7_csv_export_witness :
    export_logs (logAfter 2) (some "csv".toList) (some 1) [] []
      = .csv (csvHeader ::
            ((logAfter 2).reverse.take (min ((some (1 : ℤ)).getD 1000) 1000).toNat).map csvRow)
          ("interactions_".toList ++ [] ++ ".csv".toList) "text/csv".toList :=
  (C7_csv_export (logAfter 2) (some 1) [] [] (by decide)).1

/-- C8 counterexample: the format parameter `CSV` differs from both `csv`
and `txt`, yet the export is not serialized as JSON — it takes the CSV
branch, because the handler lowercases the parameter first. -/
theorem C8_uppercase_CSV_not_json :
    "CSV".toList ≠ "csv".toList ∧ "CSV".toList ≠ "txt".toList ∧
    (export_logs [] (some "CSV".toList) none [] []).isJson = false ∧
    (export_logs [] (some "CSV".toList) none [] []).mimetype = "text/csv".toList := by
  refine ⟨by decide, by decide, by decide, by decide⟩

/-- C8 (amended): whenever the format parameter, lowercased, is any string
other than `csv` or `txt`, the export is serialized as JSON with the JSON
filename and content type; an unrecognized format never produces an
error. -/
theorem C8_unrecognized_format_json (log : List Interaction) (fmt : Str)
    (limitArg : Option ℤ) (ts tsIso : Str)
    (h1 : pyLower fmt ≠ "csv".toList) (h2 : pyLower fmt ≠ "txt".toList) :
    (export_logs log (some fmt) limitArg ts tsIso).isJson = true ∧
    (export_logs log (some fmt) limitArg ts tsIso).filename
      = "interactions_".toList ++ ts ++ ".json".toList ∧
    (export_logs log (some fmt) limitArg ts tsIso).mimetype
      = "application/json".toList := by
  simp only [export_logs, Option.getD_some]
  rw [if_neg h1, if_neg h2]
  exact ⟨rfl, rfl, rfl⟩

theorem C8_unrecognized_format_json_witness :
    (export_logs [] (some "yaml".toList) none [] []).isJson = true ∧
    (export_logs [] (some "yaml".toList) none [] []).filename
      = "interactions_".toList ++ [] ++ ".json".toList ∧
    (export_logs [] (some "yaml".toList) none [] []).mimetype
      = "application/json".toList :=
  C8_unrecognized_format_json [] _ none [] [] (by decide) (by decide)

/-- C9 counterexample: a negative offset can yield an empty page.  With 3
logged interactions, `get_logs(limit=1, offset=-1)` returns no records at
all: the slice start `3 + (-1) = 2` counts from the end of the reversed
view, but the stop `offset + limit = 0` still counts from the front, so
the slice `[2:0]` is empty. -/
theorem C9_negative_offset_empty_page :
    (get_logs (logAfter 3) (some 1) (some (-1))).logs = [] ∧
    (get_logs (logAfter 3) (some 1) (some (-1))).total = 3 := by
  exact ⟨by decide, by decide⟩

/-- C9 (amended): a negative offset is not rejected and is interpreted per
Python slice semantics as an index from the end of the reversed
(most-recent-first) view: whenever `-total ≤ offset < 0` and the stop
index `offset + limit` reaches past the end (`total ≤ offset + limit`),
the page consists exactly of the oldest `-offset` records — the tail of
the reversed view — and is non-empty; but when `offset + limit` falls
short of the slice start, the page is empty (see the counterexample). -/
theorem C9_negative_offset_slices_from_oldest (log : List Interaction)
    (limitArg offsetArg : Option ℤ)
    (hoff : offsetArg.getD 0 < 0)
    (hlow : -((log.length : ℕ) : ℤ) ≤ offsetArg.getD 0)
    (hlim : ((log.length : ℕ) : ℤ) ≤ offsetArg.getD 0 + min (limitArg.getD 50) 200) :
    (get_logs log limitArg offsetArg).logs
      = log.reverse.drop (((log.length : ℕ) : ℤ) + offsetArg.getD 0).toNat ∧
    (get_logs log limitArg offsetArg).logs ≠ [] := by
  have key : (get_logs log limitArg offsetArg).logs
      = log.reverse.drop (((log.length : ℕ) : ℤ) + offsetArg.getD 0).toNat := by
    simp only [get_logs, pySlice, List.length_reverse]
    rw [if_pos hoff, if_neg (by omega)]
    have h1 : max 0 (((log.length : ℕ) : ℤ) + offsetArg.getD 0)
        = ((log.length : ℕ) : ℤ) + offsetArg.getD 0 := by omega
    have h2 : min (offsetArg.getD 0 + min (limitArg.getD 50) 200) (((log.length : ℕ) : ℤ))
        = ((log.length : ℕ) : ℤ) := by omega
    rw [h1, h2]
    apply List.take_of_length_le
    rw [List.length_drop, List.length_reverse]
    omega
  refine ⟨key, ?_⟩
  rw [key]
  intro hnil
  have hlen := congrArg List.length hnil
  rw [List.length_drop, List.length_reverse] at hlen
  simp only [List.length_nil] at hlen
  omega

theorem C9_negative_offset_slices_from_oldest_witness :
    (get_logs (logAfter 3) none (some (-1))).logs
      = (logAfter 3).reverse.drop ((((logAfter 3).length : ℕ) : ℤ) + (some (-1 : ℤ)).getD 0).toNat ∧
    (get_logs (logAfter 3) none (some (-1))).logs ≠ [] :=
  C9_negative_offset_slices_from_oldest (logAfter 3) none (some (-1))
    (by decide) (by decide) (by decide)

/-- C10: the `total_interactions` field of a JSON export equals the number
of records actually exported after most-recent-first truncation to the
limit — the minimum of the (capped) limit and the log size — and equals
the length of the exported `logs` array. -/
theorem C10_json_total_is_exported_count (log : List Interaction)
    (fmtArg : Option Str) (limitArg : Option ℤ) (ts tsIso : Str)
    (h1 : pyLower (fmtArg.getD "json".toList) ≠ "csv".toList)
    (h2 : pyLower (fmtArg.getD "json".toList) ≠ "txt".toList)
    (hl : 0 ≤ limitArg.getD 1000) :
    (export_logs log fmtArg limitArg ts tsIso).jsonPayload.map JsonExport.total_interactions
      = some (min (min (limitArg.getD 1000) 1000).toNat log.length) ∧
    (export_logs log fmtArg limitArg ts tsIso).jsonPayload.map (fun p => p.logs.length)
      = some (min (min (limitArg.getD 1000) 1000).toNat log.length) := by
  have key : (if min (limitArg.getD 1000) 1000 < ((log.length : ℕ) : ℤ)
        then pySlice 0 (min (limitArg.getD 1000) 1000) log.reverse
        else log.reverse).length
      = min (min (limitArg.getD 1000) 1000).toNat log.length := by
    split
    · rename_i h
      rw [pySlice_zero_nonneg _ (by omega), List.length_take, List.length_reverse]
    · rename_i h
      rw [List.length_reverse]
      omega
  simp only [export_logs]
  rw [if_neg h1, if_neg h2]
  simp only [ExportResult.jsonPayload]
  exact ⟨congrArg some key, congrArg some key⟩

theorem C10_json_total_is_exported_count_witness :
    (export_logs (logAfter 2) none (some 1) [] []).jsonPayload.map JsonExport.total_interactions
      = some (min (min ((some (1 : ℤ)).getD 1000) 1000).toNat (logAfter 2).length) ∧
    (export_logs (logAfter 2) none (some 1) [] []).jsonPayload.map (fun p => p.logs.length)
      = some (min (min ((some (1 : ℤ)).getD 1000) 1000).toNat (logAfter 2).length) :=
  C10_json_total_is_exported_count (logAfter 2) none (some 1) [] []
    (by decide) (by decide) (by decide)
